import Mathlib

/-!
Verification development for the obligator identity broker.

The definitions below are a shallow embedding of the Go source:
pure helpers (PKCE generation, SHA-256, base64url) are translated as
Lean functions on Nat byte lists; each HTTP handler becomes a pure
function from its request-derived data plus a world record (modelling
the database, the network and the signing oracle) to a response record
that lists the status code, the Set-Cookie operations in order, and the
tokens the handler built.
-/

namespace Obligator

/-- Word arithmetic truncated to 32 bits, as Go uint32 arithmetic. -/
def w32 (n : Nat) : Nat := n % 4294967296

/-- Rotate a 32-bit word right by n bits. -/
def rotr (n x : Nat) : Nat := w32 ((x >>> n) + ((x % 2 ^ n) <<< (32 - n)))

/-- SHA-256 small sigma 0. -/
def ssig0 (x : Nat) : Nat := Nat.xor (Nat.xor (rotr 7 x) (rotr 18 x)) (x >>> 3)

/-- SHA-256 small sigma 1. -/
def ssig1 (x : Nat) : Nat := Nat.xor (Nat.xor (rotr 17 x) (rotr 19 x)) (x >>> 10)

/-- SHA-256 big sigma 0. -/
def bsig0 (x : Nat) : Nat := Nat.xor (Nat.xor (rotr 2 x) (rotr 13 x)) (rotr 22 x)

/-- SHA-256 big sigma 1. -/
def bsig1 (x : Nat) : Nat := Nat.xor (Nat.xor (rotr 6 x) (rotr 11 x)) (rotr 25 x)

/-- SHA-256 choice function. -/
def shaCh (e f g : Nat) : Nat := Nat.xor (Nat.land e f) (Nat.land (Nat.xor e 4294967295) g)

/-- SHA-256 majority function. -/
def shaMaj (a b c : Nat) : Nat := Nat.xor (Nat.xor (Nat.land a b) (Nat.land a c)) (Nat.land b c)

/-- SHA-256 round constants, written in decimal. -/
def shaK : List Nat :=
  [1116352408, 1899447441, 3049323471, 3921009573, 961987163, 1508970993,
   2453635748, 2870763221, 3624381080, 310598401, 607225278, 1426881987,
   1925078388, 2162078206, 2614888103, 3248222580, 3835390401, 4022224774,
   264347078, 604807628, 770255983, 1249150122, 1555081692, 1996064986,
   2554220882, 2821834349, 2952996808, 3210313671, 3336571891, 3584528711,
   113926993, 338241895, 666307205, 773529912, 1294757372, 1396182291,
   1695183700, 1986661051, 2177026350, 2456956037, 2730485921, 2820302411,
   3259730800, 3345764771, 3516065817, 3600352804, 4094571909, 275423344,
   430227734, 506948616, 659060556, 883997877, 958139571, 1322822218,
   1537002063, 1747873779, 1955562222, 2024104815, 2227730452, 2361852424,
   2428436474, 2756734187, 3204031479, 3329325298]

/-- SHA-256 initial hash state, written in decimal. -/
def shaH0 : List Nat :=
  [1779033703, 3144134277, 1013904242, 2773480762,
   1359893119, 2600822924, 528734635, 1541459225]

/-- Big-endian 8-byte encoding of a Nat. -/
def be8 (n : Nat) : List Nat :=
  [n / 2 ^ 56 % 256, n / 2 ^ 48 % 256, n / 2 ^ 40 % 256, n / 2 ^ 32 % 256,
   n / 2 ^ 24 % 256, n / 2 ^ 16 % 256, n / 2 ^ 8 % 256, n % 256]

/-- Big-endian 4-byte encoding of a 32-bit word. -/
def be4 (n : Nat) : List Nat := [n / 2 ^ 24 % 256, n / 2 ^ 16 % 256, n / 2 ^ 8 % 256, n % 256]

/-- SHA-256 message padding: append 0x80, zeros to 56 mod 64, and the 64-bit bit length. -/
def shaPad (msg : List Nat) : List Nat :=
  msg ++ 0x80 :: List.replicate ((120 - (msg.length + 1) % 64) % 64) 0 ++ be8 (8 * msg.length)

/-- Split a byte list into 64-byte chunks; fuel bounds the recursion. -/
def chunk64 : Nat → List Nat → List (List Nat)
  | 0, _ => []
  | _, [] => []
  | fuel + 1, l => l.take 64 :: chunk64 fuel (l.drop 64)

/-- Big-endian word i of a 64-byte chunk. -/
def beWord (chunk : List Nat) (i : Nat) : Nat :=
  chunk.getD (4 * i) 0 * 2 ^ 24 + chunk.getD (4 * i + 1) 0 * 2 ^ 16 +
  chunk.getD (4 * i + 2) 0 * 2 ^ 8 + chunk.getD (4 * i + 3) 0

/-- Extend the 16 message words to the 64-entry SHA-256 message schedule. -/
def shaSchedule (ws : List Nat) : List Nat :=
  (List.range 48).foldl
    (fun acc _ =>
      acc ++ [w32 (ssig1 (acc.getD (acc.length - 2) 0) + acc.getD (acc.length - 7) 0 +
                   ssig0 (acc.getD (acc.length - 15) 0) + acc.getD (acc.length - 16) 0)])
    ws

/-- One SHA-256 compression round on the 8-word working state. -/
def shaRound (st : List Nat) (wk : Nat × Nat) : List Nat :=
  match st with
  | [a, b, c, d, e, f, g, h] =>
    let t1 := w32 (h + bsig1 e + shaCh e f g + wk.2 + wk.1)
    let t2 := w32 (bsig0 a + shaMaj a b c)
    [w32 (t1 + t2), a, b, c, w32 (d + t1), e, f, g]
  | _ => st

/-- Compress one 64-byte chunk into the running hash state. -/
def shaCompress (h : List Nat) (chunk : List Nat) : List Nat :=
  let ws := shaSchedule ((List.range 16).map (beWord chunk))
  let st := (ws.zip shaK).foldl shaRound h
  List.zipWith (fun x y => w32 (x + y)) h st

/-- SHA-256 of a byte list, as crypto/sha256 computes it. -/
def sha256Bytes (msg : List Nat) : List Nat :=
  let padded := shaPad msg
  ((chunk64 padded.length padded).foldl shaCompress shaH0).foldr (fun w acc => be4 w ++ acc) []

/-- UTF-8 encoding of a single character. -/
def charUtf8 (c : Char) : List Nat :=
  let n := c.toNat
  if n < 0x80 then [n]
  else if n < 0x800 then [0xc0 + n / 64, 0x80 + n % 64]
  else if n < 0x10000 then [0xe0 + n / 4096, 0x80 + n / 64 % 64, 0x80 + n % 64]
  else [0xf0 + n / 262144, 0x80 + n / 4096 % 64, 0x80 + n / 64 % 64, 0x80 + n % 64]

/-- UTF-8 bytes of a string, as Go writes string bytes into a hash. -/
def utf8Bytes (s : String) : List Nat := s.data.foldr (fun c acc => charUtf8 c ++ acc) []

/-- Alphabet of base64.RawURLEncoding. -/
def b64UrlAlphabet : String :=
  "ABCDEFGHIJKLMNOPQRSTUVWXYZabcdefghijklmnopqrstuvwxyz0123456789-_"

/-- Character for a 6-bit group. -/
def b64Char (n : Nat) : Char := b64UrlAlphabet.data.getD n 'A'

/-- Encode bytes in 3-byte groups to base64url characters, without padding. -/
def b64Groups : Nat → List Nat → List Char
  | 0, _ => []
  | _, [] => []
  | _, [b1] => [b64Char (b1 / 4), b64Char (b1 % 4 * 16)]
  | _, [b1, b2] => [b64Char (b1 / 4), b64Char (b1 % 4 * 16 + b2 / 16), b64Char (b2 % 16 * 4)]
  | fuel + 1, b1 :: b2 :: b3 :: rest =>
    b64Char (b1 / 4) :: b64Char (b1 % 4 * 16 + b2 / 16) ::
    b64Char (b2 % 16 * 4 + b3 / 64) :: b64Char (b3 % 64) :: b64Groups fuel rest

/-- base64.RawURLEncoding.EncodeToString: base64url without padding. -/
def base64UrlNoPad (bytes : List Nat) : String := String.mk (b64Groups bytes.length bytes)

/-- GeneratePKCECodeChallenge from the source: base64url_nopad(SHA-256(verifier)). -/
def GeneratePKCECodeChallenge (verifier : String) : String :=
  base64UrlNoPad (sha256Bytes (utf8Bytes verifier))

/-- Character set the PKCE verifier draws from, as in the source. -/
def pkceChars : String := "0123456789abcdefghijklmnopqrstuvwxyzABCDEFGHIJKLMNOPQRSTUVWXYZ-._~"

/-- GeneratePKCECodeVerifier from the source: 64 characters indexed by the
random values r 0, ..., r 63, each drawn uniformly below the alphabet size. -/
def GeneratePKCECodeVerifier (r : Nat → Fin 66) : String :=
  String.mk ((List.range 64).map fun i => pkceChars.data.getD (r i).val '0')

/-- GeneratePKCEData from the source: returns (challenge, verifier). -/
def GeneratePKCEData (r : Nat → Fin 66) : String × String :=
  let verifier := GeneratePKCECodeVerifier r
  (GeneratePKCECodeChallenge verifier, verifier)

/-- Value of a JWT claim as the Go code observes it through an interface:
either a string or some other JSON shape. -/
inductive JClaim where
  | str (s : String)
  | other
deriving DecidableEq, Repr

/-- Go comparison of a claim interface value against a string literal. -/
def JClaim.eqStr : JClaim → String → Bool
  | .str t, s => t == s
  | .other, _ => false

/-- Identity record from the session cookie, as in the source. -/
structure Identity where
  IdType : String
  Id : String
  ProviderName : String
  Name : String
  Email : String
  EmailVerified : Bool
deriving DecidableEq, Repr

/-- Login record from the session cookie, as in the source. -/
structure Login where
  IdType : String
  Id : String
  ProviderName : String
  Timestamp : String
deriving DecidableEq, Repr

/-- Result of reading a custom claim from a parsed JWT: the claim can be
absent, present with an unexpected Go type, or present with the expected
type, matching the two-step exists/type-assert pattern in the source. -/
inductive ClaimGet (α : Type) where
  | missing
  | wrongType
  | found (a : α)
deriving DecidableEq, Repr

/-- Payload of a parsed login_key session cookie: the identities and logins
custom claims as the jwx parser exposes them. -/
structure SessionPayload where
  identities : ClaimGet (List Identity)
  logins : ClaimGet (List (String × List Login))
deriving DecidableEq, Repr

/-- A Set-Cookie operation emitted by a handler, in emission order:
a plain envelope cookie set, a login-key cookie rewritten by appending an
identity, a login-key cookie rewritten by appending a login record, or a
deletion cookie. -/
inductive CookieOp where
  | set (name : String)
  | setLoginIdent (oldValue : String) (ident : Identity)
  | setLoginLogin (oldValue : String) (clientId : String) (lg : Login)
  | clear (name : String)
deriving DecidableEq, Repr

/-- Payload of a parsed authorization-code envelope at /token: the subject
plus the id_token and pkce_code_challenge custom claims. -/
structure CodeEnvelope where
  sub : String
  id_token : ClaimGet String
  pkce_code_challenge : Option JClaim
deriving DecidableEq, Repr

/-- Access token the /token handler builds. -/
structure AccessToken where
  sub : String
  iat : Nat
  exp : Nat
deriving DecidableEq, Repr

/-- Observable outcome of the /token handler: status code plus the tokens
placed in the JSON response when it succeeds. -/
structure TokenOut where
  status : Nat
  accessToken : Option AccessToken
  idToken : Option String
deriving DecidableEq, Repr

/-- Tail of the /token handler once PKCE verification passed: key lookup,
access-token build and the 200 JSON response. -/
def tokenIssue (hasKey : Bool) (now : Nat) (env : CodeEnvelope) (signedIdToken : String) :
    TokenOut :=
  if !hasKey then ⟨500, none, none⟩
  else ⟨200, some ⟨env.sub, now, now + 16⟩, some signedIdToken⟩

/-- The /token handler from the source, as a function of the parse result
of the submitted code, the code_verifier form field, whether the key set
has a key at index 0, and the current time. -/
def tokenHandler (hasKey : Bool) (now : Nat) (parsedCode : Option CodeEnvelope)
    (code_verifier : String) : TokenOut :=
  match parsedCode with
  | none => ⟨401, none, none⟩
  | some env =>
    match env.id_token with
    | .missing => ⟨401, none, none⟩
    | .wrongType => ⟨401, none, none⟩
    | .found signedIdToken =>
      match env.pkce_code_challenge with
      | none => ⟨401, none, none⟩
      | some ch =>
        if !(ch.eqStr "") then
          if !(ch.eqStr (GeneratePKCECodeChallenge code_verifier)) then
            ⟨401, none, none⟩
          else
            tokenIssue hasKey now env signedIdToken
        else
          if code_verifier != "" then
            ⟨401, none, none⟩
          else
            tokenIssue hasKey now env signedIdToken

/-- Validation record returned by validate. -/
structure Validation where
  Id : String
  IdType : String
deriving DecidableEq, Repr

/-- Total rendering of the outcome of validate: a validation, the
passthrough nil-nil return, an error return, or the out-of-bounds read of
identities[0] which panics in the source. -/
inductive ValidateResult where
  | success (v : Validation)
  | nilNilPassthrough
  | failure
  | indexOutOfBounds
deriving DecidableEq, Repr

/-- checkErrPassthrough from the source. -/
def checkErrPassthroughM (passthrough : Bool) : ValidateResult :=
  if passthrough then .nilNilPassthrough else .failure

/-- The validate function from the source, over the presence of the
login_key cookie, the success of deriving the public JWKS, and the parse
result of the cookie value. The element access identities[0] is embedded
totally: the empty-list case is the panic branch. -/
def validate (passthrough : Bool) (cookie : Option String) (jwksOk : Bool)
    (parsed : Option SessionPayload) : ValidateResult :=
  match cookie with
  | none => checkErrPassthroughM passthrough
  | some _ =>
    if !jwksOk then checkErrPassthroughM passthrough
    else
      match parsed with
      | none => checkErrPassthroughM passthrough
      | some payload =>
        match payload.identities with
        | .missing => checkErrPassthroughM passthrough
        | .wrongType => checkErrPassthroughM passthrough
        | .found idents =>
          match idents with
          | [] => .indexOutOfBounds
          | ident :: _ => .success ⟨ident.Id, ident.IdType⟩

/-- Parsed URL as used by the handlers: only the host component is read. -/
structure ParsedURL where
  host : String
deriving DecidableEq, Repr

/-- OAuth2 provider configuration record, as in the source. -/
structure OAuth2Provider where
  ID : String
  Name : String
  ClientID : String
  ClientSecret : String
  Scope : String
  AuthorizationURI : String
  TokenURI : String
  URI : String
  OpenIDConnect : Bool
deriving DecidableEq, Repr

/-- Form fields of an /auth request. -/
structure AuthForm where
  client_id : String
  redirect_uri : String
  scope : String
  state : String
  prompt : String
  response_type : String
  nonce : String
  code_challenge : String
deriving DecidableEq, Repr

/-- OAuth2AuthRequest from the source. -/
structure OAuth2AuthRequestM where
  ClientId : String
  RedirectUri : String
  Scope : String
  State : String
  ResponseType : String
  CodeChallenge : String
deriving DecidableEq, Repr

/-- Response of the /auth handler: status, the Set-Cookie operations in
order, and the redirect target when one is issued. -/
structure AuthOut where
  status : Nat
  cookies : List CookieOp
  redirect : Option String
deriving DecidableEq, Repr

/-- ParseAuthRequest from the source, over an abstract URL parser standing
for net/url. On failure it returns the response the Go function wrote
before returning an error; it writes no cookie. -/
def ParseAuthRequest (parseURL : String → Option ParsedURL) (f : AuthForm) :
    Except AuthOut OAuth2AuthRequestM :=
  if f.client_id == "" then .error ⟨400, [], none⟩
  else if f.redirect_uri == "" then .error ⟨400, [], none⟩
  else
    match parseURL f.client_id with
    | none => .error ⟨400, [], none⟩
    | some pc =>
      match parseURL f.redirect_uri with
      | none => .error ⟨400, [], none⟩
      | some pr =>
        if pc.host != pr.host then .error ⟨400, [], none⟩
        else if f.prompt == "none" then
          .error ⟨303, [], some (f.redirect_uri ++ "?error=interaction_required&state=" ++ f.state)⟩
        else if f.response_type == "" then
          .error ⟨303, [], some (f.redirect_uri ++ "?error=unsupported_response_type&state=" ++ f.state)⟩
        else
          .ok ⟨f.client_id, f.redirect_uri, f.scope, f.state, f.response_type, f.code_challenge⟩

/-- Environment of the /auth handler: URL parser, cookie-name prefix,
provider listing, SMTP probe and template rendering outcomes. -/
structure AuthWorld where
  pfx : String
  parseURL : String → Option ParsedURL
  providers : Option (List OAuth2Provider)
  smtpOk : Bool
  templateOk : Bool
deriving Inhabited

/-- The /auth handler from the source. The identities and logins read from
the session cookie feed only the rendered template, so they do not appear
in the observable response; the cookie writes and status codes follow the
order of the source. -/
def authHandler (w : AuthWorld) (f : AuthForm) : AuthOut :=
  match ParseAuthRequest w.parseURL f with
  | .error resp => resp
  | .ok ar =>
    let cookies1 := [CookieOp.set (w.pfx ++ "auth_request")]
    match w.providers with
    | none => ⟨500, cookies1, none⟩
    | some _ =>
      match w.parseURL ar.ClientId with
      | none => ⟨400, cookies1, none⟩
      | some _ =>
        let cookies2 := cookies1 ++ [CookieOp.set (w.pfx ++ "return_uri")]
        if w.templateOk then ⟨200, cookies2, none⟩ else ⟨500, cookies2, none⟩

/-- Split a character list at every occurrence of sep, as strings.Split
does with a one-character separator: the empty input yields one empty
part. -/
def splitGo (sep : Char) : List Char → List (List Char)
  | [] => [[]]
  | c :: rest =>
    let r := splitGo sep rest
    if c == sep then [] :: r
    else
      match r with
      | [] => [[c]]
      | h :: t => (c :: h) :: t

/-- strings.Split of a string at single spaces, as the source splits the
scope parameter. -/
def splitScope (s : String) : List String := (splitGo ' ' s.data).map String.mk

/-- Claims of a parsed auth_request envelope, read via claimFromToken. -/
structure AuthReqEnv where
  login_key_hash : String
  client_id : String
  redirect_uri : String
  state : String
  scope : String
  nonce : String
  pkce_code_challenge : String
  response_type : String
deriving DecidableEq, Repr

/-- ID token the /approve handler builds with the openid builder. Optional
claims are present exactly when the builder set them. -/
structure IdToken where
  sub : String
  iss : String
  aud : List String
  iat : Nat
  exp : Nat
  nonce : String
  email : Option String
  email_verified : Option Bool
  name : Option String
deriving DecidableEq, Repr

/-- Email getter of the openid token type: the empty string when the email
claim is absent. -/
def idTokenEmail (t : IdToken) : String := t.email.getD ""

/-- Authorization-code envelope the /approve handler builds. -/
structure CodeEnvBuilt where
  iat : Nat
  exp : Nat
  sub : String
  id_token : String
  pkce_code_challenge : String
deriving DecidableEq, Repr

/-- Environment of the /approve handler: cookie prefix, issuer root URI,
current time, outcome of addLoginToCookie, presence of a signing key, and
the signing oracles. -/
structure ApproveWorld where
  pfx : String
  rootUri : String
  now : Nat
  addLoginOk : Bool
  hasKey : Bool
  signIdToken : IdToken → String
  signCode : CodeEnvBuilt → String

/-- Observable outcome of the /approve handler: status, cookie operations
in order, redirect target, and the ID token and code envelope it built and
signed on the success path. -/
structure ApproveOut where
  status : Nat
  cookies : List CookieOp
  redirect : Option String
  idToken : Option IdToken
  code : Option CodeEnvBuilt

/-- The /approve handler from the source, over the request method, the
login_key cookie and its parse result, the parse result of the
auth_request cookie, and the identity_id form field. -/
def approveHandler (w : ApproveWorld) (method : String) (loginCookie : Option String)
    (parsedLoginKey : Option SessionPayload) (authReq : Option AuthReqEnv)
    (identity_id : String) : ApproveOut :=
  if method != "POST" then ⟨405, [], none, none, none⟩
  else
    match loginCookie with
    | none => ⟨401, [], none, none, none⟩
    | some loginKeyValue =>
      match parsedLoginKey with
      | none => ⟨401, [], none, none, none⟩
      | some payload =>
        let cookies0 := [CookieOp.clear (w.pfx ++ "auth_request")]
        match authReq with
        | none => ⟨401, cookies0, none, none, none⟩
        | some ar =>
          let identityFound :=
            match payload.identities with
            | .found idents => idents.find? (fun (i : Identity) => i.Id == identity_id)
            | _ => none
          match identityFound with
          | none => ⟨403, cookies0, none, none, none⟩
          | some identity =>
            let clientId := ar.client_id
            let newLogin : Login := ⟨"email", identity.Id, identity.ProviderName, ""⟩
            if !w.addLoginOk then ⟨500, cookies0, none, none, none⟩
            else
              let cookies1 := cookies0 ++ [CookieOp.setLoginLogin loginKeyValue clientId newLogin]
              let scopeParts := splitScope ar.scope
              let emailRequested := scopeParts.contains "email"
              let profileRequested := scopeParts.contains "profile"
              let idToken : IdToken :=
                { sub := identity_id
                  iss := w.rootUri
                  aud := [clientId]
                  iat := w.now
                  exp := w.now + 86400
                  nonce := ar.nonce
                  email := if emailRequested then some identity.Email else none
                  email_verified := if emailRequested then some identity.EmailVerified else none
                  name := if profileRequested && identity.Name != "" then some identity.Name else none }
              if !w.hasKey then ⟨500, cookies1, none, none, none⟩
              else
                let signedIdToken := w.signIdToken idToken
                let code : CodeEnvBuilt :=
                  ⟨w.now, w.now + 16, idTokenEmail idToken, signedIdToken, ar.pkce_code_challenge⟩
                let signedCode := w.signCode code
                if ar.response_type == "none" then
                  ⟨303, cookies1, some ar.redirect_uri, some idToken, some code⟩
                else
                  ⟨303, cookies1,
                   some (ar.redirect_uri ++ "?client_id=" ++ clientId ++ "&redirect_uri=" ++
                         ar.redirect_uri ++ "&code=" ++ signedCode ++ "&state=" ++ ar.state ++
                         "&scope=" ++ ar.scope),
                   some idToken, some code⟩

/-- Claims of a parsed upstream_oauth2_request envelope. -/
structure UpstreamEnv where
  provider_id : String
  state : String
  nonce : String
  pkce_code_verifier : String
deriving DecidableEq, Repr

/-- OAuth2TokenResponse from the source. -/
structure OAuth2TokenResponseM where
  access_token : String
  token_type : String
  expires_in : Nat
  id_token : String
deriving DecidableEq, Repr

/-- Provider ID token as the jwx openid parser exposes it: the nonce claim
as raw JSON shape plus the email and name getters. -/
structure OidcTokenM where
  nonce : Option JClaim
  email : String
  name : String
deriving DecidableEq, Repr

/-- Outcome of parsing the provider id_token against the provider keyset:
a parse or signature failure, a token that is not an openid token, or a
verified openid token. -/
inductive ProviderTokenParse where
  | fail
  | notOidc
  | ok (t : OidcTokenM)
deriving DecidableEq, Repr

/-- Modelled from the spec: the domainToUri helper is not among the given
sources; per the metadata and callback construction it maps a host to its
https URI. -/
def domainToUri (domain : String) : String := "https://" ++ domain

/-- Modelled from the spec: the validUser helper is not among the given
sources; per section 4.5 it checks membership of the email in the
allow-list of configured users. -/
def validUser (email : String) (users : List String) : Bool := users.contains email

/-- Environment of the /callback handler: cookie prefix, the database
lookups, the metadata manager, the upstream network exchanges, and the
outcomes of the cookie helpers. -/
structure CallbackWorld where
  pfx : String
  providerById : String → Option OAuth2Provider
  metaTokenEndpoint : String → Option String
  exchange : String → List (String × String) → Option (Nat × Option OAuth2TokenResponseM)
  keysetOk : String → Bool
  parseProviderToken : String → String → ProviderTokenParse
  getProfile : String → String → Except String (String × String)
  users : Option (List String)
  returnUriCookie : Option String
  configPublic : Option Bool
  loginCookie : Option String
  addIdentOk : Bool
  setLoginOk : Bool

/-- Request data of a /callback request: host plus the code and state
query parameters. -/
structure CallbackRequest where
  host : String
  code : String
  state : String
deriving DecidableEq, Repr

/-- Response of the /callback handler. -/
structure CallbackOut where
  status : Nat
  cookies : List CookieOp
  redirect : Option String
deriving DecidableEq, Repr

/-- Tail of the /callback handler after the email and name are determined:
user gate, return-uri consumption, identity append, and final redirect,
in the order of the source. -/
def callbackFinish (w : CallbackWorld) (req : CallbackRequest) (prov : OAuth2Provider)
    (email name : String) : CallbackOut :=
  match w.users with
  | none => ⟨500, [], none⟩
  | some users =>
    match w.returnUriCookie with
    | none => ⟨500, [], none⟩
    | some returnUri =>
      match w.configPublic with
      | none => ⟨500, [], none⟩
      | some isPublic =>
        if !isPublic && !validUser email users then
          ⟨303, [], some (domainToUri req.host ++ "/no-account?" ++ returnUri)⟩
        else
          let cookies0 := [CookieOp.clear (w.pfx ++ "return_uri")]
          let cookieValue := w.loginCookie.getD ""
          let newIdent : Identity := ⟨"email", email, prov.Name, name, email, true⟩
          if !w.addIdentOk then ⟨500, cookies0, none⟩
          else if !w.setLoginOk then ⟨500, cookies0, none⟩
          else
            ⟨303,
             cookies0 ++ [CookieOp.setLoginIdent cookieValue newIdent,
                          CookieOp.clear (w.pfx ++ "upstream_oauth2_request")],
             some returnUri⟩

/-- Form body of the upstream token-exchange request, in the order the
source sets the url.Values keys; the state parameter is not among them. -/
def exchangeBody (req : CallbackRequest) (env : UpstreamEnv) (prov : OAuth2Provider) :
    List (String × String) :=
  [("code", req.code), ("client_id", prov.ClientID),
   ("client_secret", prov.ClientSecret),
   ("redirect_uri", domainToUri req.host ++ "/callback"),
   ("grant_type", "authorization_code"),
   ("code_verifier", env.pkce_code_verifier)]

/-- Middle of the /callback handler: build the token-exchange body, post it
to the token endpoint, decode the response, then verify the provider token
(OIDC) or fetch the profile (plain OAuth2). The source discards the error
of GetProfile with blank identifiers and keeps only the email, which is
empty on every error path of GetProfile. -/
def callbackExchange (w : CallbackWorld) (req : CallbackRequest) (env : UpstreamEnv)
    (prov : OAuth2Provider) (tokenEndpoint : String) : CallbackOut :=
  match w.exchange tokenEndpoint (exchangeBody req env prov) with
  | none => ⟨500, [], none⟩
  | some (st, decoded) =>
    if st != 200 then ⟨500, [], none⟩
    else
      match decoded with
      | none => ⟨500, [], none⟩
      | some tokenRes =>
        if prov.OpenIDConnect then
          if !w.keysetOk prov.ID then ⟨500, [], none⟩
          else
            match w.parseProviderToken prov.ID tokenRes.id_token with
            | .fail => ⟨500, [], none⟩
            | .notOidc => ⟨500, [], none⟩
            | .ok t =>
              match t.nonce with
              | none => ⟨400, [], none⟩
              | some .other => ⟨400, [], none⟩
              | some (.str n) =>
                if env.nonce != n then ⟨403, [], none⟩
                else callbackFinish w req prov t.email t.name
        else
          callbackFinish w req prov
            (match w.getProfile prov.ID tokenRes.access_token with
             | .error _ => ""
             | .ok (_, e) => e) ""

/-- The /callback handler from the source, over the presence of the
upstream_oauth2_request cookie, its parse result, and the request data. -/
def callbackHandler (w : CallbackWorld) (upstreamCookie : Option String)
    (parsedUpstream : Option UpstreamEnv) (req : CallbackRequest) : CallbackOut :=
  match upstreamCookie with
  | none => ⟨500, [], none⟩
  | some _ =>
    match parsedUpstream with
    | none => ⟨500, [], none⟩
    | some env =>
      match w.providerById env.provider_id with
      | none => ⟨500, [], none⟩
      | some prov =>
        if prov.OpenIDConnect then
          if prov.ID == "facebook" then callbackExchange w req env prov prov.TokenURI
          else
            match w.metaTokenEndpoint prov.ID with
            | none => ⟨500, [], none⟩
            | some te => callbackExchange w req env prov te
        else callbackExchange w req env prov prov.TokenURI

/-- Membership predicate for the PKCE unreserved character set. -/
def isUnreservedChar (c : Char) : Bool :=
  ('A' ≤ c && c ≤ 'Z') || ('a' ≤ c && c ≤ 'z') || ('0' ≤ c && c ≤ '9') ||
  c == '-' || c == '.' || c == '_' || c == '~'

theorem list_getD_mem {α : Type} {l : List α} {i : Nat} (h : i < l.length) (d : α) :
    l.getD i d ∈ l := by
  rw [List.getD_eq_getElem l d h]
  exact List.getElem_mem h

theorem pkceChars_unreserved : ∀ c ∈ pkceChars.data, isUnreservedChar c = true := by decide

theorem pkceChars_length : pkceChars.data.length = 66 := by decide

/-- C6: for every PKCE pair returned by GeneratePKCEData, the challenge is
base64url_nopad of the SHA-256 of the verifier, the verifier has length
exactly 64, and every character of the verifier lies in the unreserved set. -/
theorem generatePKCEData_spec (r : Nat → Fin 66) :
    (GeneratePKCEData r).1 = base64UrlNoPad (sha256Bytes (utf8Bytes (GeneratePKCEData r).2)) ∧
    (GeneratePKCEData r).2.length = 64 ∧
    ∀ c ∈ (GeneratePKCEData r).2.data, isUnreservedChar c = true := by
  refine ⟨rfl, ?_, ?_⟩
  · show ((List.range 64).map fun i => pkceChars.data.getD (r i).val '0').length = 64
    simp
  · intro c hc
    have hc2 : c ∈ (List.range 64).map (fun i => pkceChars.data.getD (r i).val '0') := hc
    rcases List.mem_map.mp hc2 with ⟨i, _, rfl⟩
    have hi : (r i).val < pkceChars.data.length := by
      rw [pkceChars_length]; exact (r i).isLt
    exact pkceChars_unreserved _ (list_getD_mem hi '0')

/-- C9: for every request whose login-key cookie is present, verifies and
parses successfully but carries an empty identities list, validate reaches
the out-of-bounds read of identities[0], embedded here as the panic
branch. -/
theorem validate_empty_identities_panics (passthrough : Bool) (v : String)
    (lg : ClaimGet (List (String × List Login))) :
    validate passthrough (some v) true (some ⟨.found [], lg⟩) = .indexOutOfBounds := rfl

/-- C1: at /token, when the code envelope carries a non-empty
pkce_code_challenge the request returns 200 only if the supplied
code_verifier hashes (base64url_nopad of SHA-256) to the challenge, and a
mismatch yields 401; when the challenge is the empty string, a supplied
non-empty code_verifier itself yields 401. -/
theorem tokenHandler_pkce (hasKey : Bool) (now : Nat) (env : CodeEnvelope)
    (verifier ch : String) (hch : env.pkce_code_challenge = some (.str ch)) :
    (ch ≠ "" →
      ((tokenHandler hasKey now (some env) verifier).status = 200 →
        GeneratePKCECodeChallenge verifier = ch) ∧
      (GeneratePKCECodeChallenge verifier ≠ ch →
        (tokenHandler hasKey now (some env) verifier).status = 401)) ∧
    (ch = "" → verifier ≠ "" →
      (tokenHandler hasKey now (some env) verifier).status = 401) := by
  cases hidt : env.id_token with
  | missing =>
    simp [tokenHandler, hidt]
  | wrongType =>
    simp [tokenHandler, hidt]
  | found idt =>
    by_cases hche : ch = ""
    · subst hche
      constructor
      · intro h; exact absurd rfl h
      · intro _ hv
        simp [tokenHandler, hidt, hch, JClaim.eqStr, hv]
    · by_cases heq : GeneratePKCECodeChallenge verifier = ch
      · refine ⟨fun _ => ⟨fun _ => heq, fun hne => absurd heq hne⟩, fun h => absurd h hche⟩
      · have hne2 : ¬ ch = GeneratePKCECodeChallenge verifier := fun h => heq h.symm
        refine ⟨fun _ => ⟨?_, fun _ => ?_⟩, fun h => absurd h hche⟩ <;>
          simp [tokenHandler, hidt, hch, JClaim.eqStr, hche, hne2, tokenIssue]

/-- Witness for C1: a mismatching verifier against the challenge "c" gives
401, and a verifier supplied against an empty challenge gives 401. -/
theorem tokenHandler_pkce_witness :
    (tokenHandler true 0 (some ⟨"s", .found "idt", some (.str "c")⟩) "v").status = 401 ∧
    (tokenHandler true 0 (some ⟨"s", .found "idt", some (.str "")⟩) "v").status = 401 :=
  ⟨((tokenHandler_pkce true 0 ⟨"s", .found "idt", some (.str "c")⟩ "v" "c" rfl).1
      (by decide)).2 (by decide),
   (tokenHandler_pkce true 0 ⟨"s", .found "idt", some (.str "")⟩ "v" "" rfl).2 rfl (by decide)⟩

/-- C4: a GET /auth request whose client_id and redirect_uri are present
and parse as URIs with differing hosts gets a 400 response and no
Set-Cookie operation at all. -/
theorem authHandler_host_mismatch (w : AuthWorld) (f : AuthForm) (u v : ParsedURL)
    (hc : f.client_id ≠ "") (hr : f.redirect_uri ≠ "")
    (hpu : w.parseURL f.client_id = some u) (hpv : w.parseURL f.redirect_uri = some v)
    (hne : u.host ≠ v.host) :
    (authHandler w f).status = 400 ∧ (authHandler w f).cookies = [] := by
  unfold authHandler ParseAuthRequest
  simp [hc, hr, hpu, hpv, hne]

/-- Witness for C4: concrete request with client host a and redirect host
b gets 400 and an empty cookie list. -/
theorem authHandler_host_mismatch_witness :
    (authHandler ⟨"obligator", fun s => some ⟨s⟩, none, true, true⟩
      ⟨"a", "b", "", "", "", "code", "", ""⟩).status = 400 ∧
    (authHandler ⟨"obligator", fun s => some ⟨s⟩, none, true, true⟩
      ⟨"a", "b", "", "", "", "code", "", ""⟩).cookies = [] :=
  authHandler_host_mismatch ⟨"obligator", fun s => some ⟨s⟩, none, true, true⟩
    ⟨"a", "b", "", "", "", "code", "", ""⟩ ⟨"a"⟩ ⟨"b"⟩
    (by decide) (by decide) rfl rfl (by decide)

/-- C5: the /callback handler never reads the state query parameter nor the
state claim of the UpstreamRequest envelope: two callback requests that
agree on everything else produce identical responses. -/
theorem callbackHandler_state_independent (w : CallbackWorld) (cv : String)
    (p n pv s1 s2 host code fs1 fs2 : String) :
    callbackHandler w (some cv) (some ⟨p, s1, n, pv⟩) ⟨host, code, fs1⟩ =
    callbackHandler w (some cv) (some ⟨p, s2, n, pv⟩) ⟨host, code, fs2⟩ := rfl

theorem callbackHandler_dispatch (w : CallbackWorld) (cv : String) (env : UpstreamEnv)
    (req : CallbackRequest) (prov : OAuth2Provider) (te : String)
    (hprov : w.providerById env.provider_id = some prov)
    (hoidc : prov.OpenIDConnect = true)
    (hte : (prov.ID = "facebook" ∧ te = prov.TokenURI) ∨
           (prov.ID ≠ "facebook" ∧ w.metaTokenEndpoint prov.ID = some te)) :
    callbackHandler w (some cv) (some env) req = callbackExchange w req env prov te := by
  unfold callbackHandler
  rcases hte with ⟨hf, hte⟩ | ⟨hf, hte⟩ <;> simp [hprov, hoidc, hf, hte]

/-- C2: in an OIDC upstream /callback flow, a verified provider token whose
nonce differs from the one stored in the UpstreamRequest envelope yields
403 with no cookie written (in particular no login-key Set-Cookie); a
missing or non-string nonce claim yields 400. -/
theorem callback_nonce_check (w : CallbackWorld) (cv : String) (env : UpstreamEnv)
    (req : CallbackRequest) (prov : OAuth2Provider) (te : String)
    (tokenRes : OAuth2TokenResponseM) (t : OidcTokenM)
    (hprov : w.providerById env.provider_id = some prov)
    (hoidc : prov.OpenIDConnect = true)
    (hte : (prov.ID = "facebook" ∧ te = prov.TokenURI) ∨
           (prov.ID ≠ "facebook" ∧ w.metaTokenEndpoint prov.ID = some te))
    (hexch : w.exchange te (exchangeBody req env prov) = some (200, some tokenRes))
    (hkeys : w.keysetOk prov.ID = true)
    (hparse : w.parseProviderToken prov.ID tokenRes.id_token = .ok t) :
    (∀ nstr, t.nonce = some (.str nstr) → env.nonce ≠ nstr →
      (callbackHandler w (some cv) (some env) req).status = 403 ∧
      (callbackHandler w (some cv) (some env) req).cookies = []) ∧
    (t.nonce = none →
      (callbackHandler w (some cv) (some env) req).status = 400 ∧
      (callbackHandler w (some cv) (some env) req).cookies = []) ∧
    (t.nonce = some .other →
      (callbackHandler w (some cv) (some env) req).status = 400 ∧
      (callbackHandler w (some cv) (some env) req).cookies = []) := by
  rw [callbackHandler_dispatch w cv env req prov te hprov hoidc hte]
  unfold callbackExchange
  refine ⟨fun nstr hn hne => ?_, fun hn => ?_, fun hn => ?_⟩ <;>
    simp [hexch, hoidc, hkeys, hparse, hn, *]

/-- Witness for C2: a concrete OIDC world whose provider token carries
nonce nonceB while the envelope stores nonceA gets 403 and no cookies. -/
theorem callback_nonce_check_witness :
    (callbackHandler
      ⟨"obligator", fun _ => some ⟨"google", "Google", "cid", "sec", "", "a", "tk", "", true⟩,
       fun _ => some "tk",
       fun _ _ => some (200, some ⟨"at", "bearer", 3600, "idt"⟩),
       fun _ => true, fun _ _ => .ok ⟨some (.str "nonceB"), "e@x", "E"⟩,
       fun _ _ => .error "x", some [], some "/r", some true, none, true, true⟩
      (some "cv") (some ⟨"google", "st", "nonceA", "ver"⟩) ⟨"h", "c", "s"⟩).status = 403 ∧
    (callbackHandler
      ⟨"obligator", fun _ => some ⟨"google", "Google", "cid", "sec", "", "a", "tk", "", true⟩,
       fun _ => some "tk",
       fun _ _ => some (200, some ⟨"at", "bearer", 3600, "idt"⟩),
       fun _ => true, fun _ _ => .ok ⟨some (.str "nonceB"), "e@x", "E"⟩,
       fun _ _ => .error "x", some [], some "/r", some true, none, true, true⟩
      (some "cv") (some ⟨"google", "st", "nonceA", "ver"⟩) ⟨"h", "c", "s"⟩).cookies = [] :=
  (callback_nonce_check
    ⟨"obligator", fun _ => some ⟨"google", "Google", "cid", "sec", "", "a", "tk", "", true⟩,
     fun _ => some "tk",
     fun _ _ => some (200, some ⟨"at", "bearer", 3600, "idt"⟩),
     fun _ => true, fun _ _ => .ok ⟨some (.str "nonceB"), "e@x", "E"⟩,
     fun _ _ => .error "x", some [], some "/r", some true, none, true, true⟩
    "cv" ⟨"google", "st", "nonceA", "ver"⟩ ⟨"h", "c", "s"⟩
    ⟨"google", "Google", "cid", "sec", "", "a", "tk", "", true⟩ "tk"
    ⟨"at", "bearer", 3600, "idt"⟩ ⟨some (.str "nonceB"), "e@x", "E"⟩
    rfl rfl (Or.inr ⟨by decide, rfl⟩) rfl rfl rfl).1 "nonceB" rfl (by decide)

/-- Counterexample to C3: with a plain-OAuth2 provider whose profile fetch
errors (the getProfile component of the world below always returns the
error Bad status getting profile), the flow does not abort: on a public
server it completes with 303 and rewrites the login-key cookie, appending
an identity whose email is empty. -/
theorem callback_profile_error_counterexample :
    callbackHandler
      ⟨"obligator", fun _ => some ⟨"github", "GitHub", "cid", "sec", "", "a", "tk", "", false⟩,
       fun _ => none, fun _ _ => some (200, some ⟨"at", "bearer", 3600, ""⟩),
       fun _ => false, fun _ _ => .fail,
       fun _ _ => .error "Bad status getting profile",
       some [], some "/r", some true, none, true, true⟩
      (some "cv") (some ⟨"github", "st", "n", "ver"⟩) ⟨"h", "c", "s"⟩ =
      ⟨303,
       [.clear "obligatorreturn_uri",
        .setLoginIdent "" ⟨"email", "", "GitHub", "", "", true⟩,
        .clear "obligatorupstream_oauth2_request"],
       some "/r"⟩ := rfl

/-- C3 (amended): an error from GetProfile for a plain-OAuth2 provider
does not abort the upstream login flow: the error is discarded at the
call site, the flow continues with an empty email and, when the server is
public and the remaining steps succeed, the handler responds 303 and
appends an identity with empty email to the login-key cookie. -/
theorem callback_profile_error_ignored (w : CallbackWorld) (cv : String)
    (env : UpstreamEnv) (req : CallbackRequest) (prov : OAuth2Provider)
    (tokenRes : OAuth2TokenResponseM) (msg : String) (us : List String) (ruri : String)
    (hprov : w.providerById env.provider_id = some prov)
    (hoidc : prov.OpenIDConnect = false)
    (hexch : w.exchange prov.TokenURI (exchangeBody req env prov) = some (200, some tokenRes))
    (hprof : w.getProfile prov.ID tokenRes.access_token = .error msg)
    (husers : w.users = some us)
    (hret : w.returnUriCookie = some ruri)
    (hconf : w.configPublic = some true)
    (haddid : w.addIdentOk = true)
    (hset : w.setLoginOk = true) :
    (callbackHandler w (some cv) (some env) req).status = 303 ∧
    CookieOp.setLoginIdent (w.loginCookie.getD "") ⟨"email", "", prov.Name, "", "", true⟩ ∈
      (callbackHandler w (some cv) (some env) req).cookies ∧
    (callbackHandler w (some cv) (some env) req).redirect = some ruri := by
  have hd : callbackHandler w (some cv) (some env) req =
      callbackExchange w req env prov prov.TokenURI := by
    unfold callbackHandler
    simp [hprov, hoidc]
  rw [hd]
  unfold callbackExchange callbackFinish
  simp [hexch, hoidc, hprof, husers, hret, hconf, haddid, hset]

/-- Witness for C3 (amended): concrete public-server world with an erroring
profile fetch completes with 303, appends the empty-email identity and
redirects to the stored return URI. -/
theorem callback_profile_error_ignored_witness :
    (callbackHandler
      ⟨"obligator", fun _ => some ⟨"github", "GitHub", "cid", "sec", "", "a", "tk", "", false⟩,
       fun _ => none, fun _ _ => some (200, some ⟨"at", "bearer", 3600, ""⟩),
       fun _ => false, fun _ _ => .fail,
       fun _ _ => .error "Bad status getting profile",
       some [], some "/r", some true, none, true, true⟩
      (some "cv") (some ⟨"github", "st", "n", "ver"⟩) ⟨"h", "c", "s"⟩).status = 303 ∧
    CookieOp.setLoginIdent "" ⟨"email", "", "GitHub", "", "", true⟩ ∈
      (callbackHandler
        ⟨"obligator", fun _ => some ⟨"github", "GitHub", "cid", "sec", "", "a", "tk", "", false⟩,
         fun _ => none, fun _ _ => some (200, some ⟨"at", "bearer", 3600, ""⟩),
         fun _ => false, fun _ _ => .fail,
         fun _ _ => .error "Bad status getting profile",
         some [], some "/r", some true, none, true, true⟩
        (some "cv") (some ⟨"github", "st", "n", "ver"⟩) ⟨"h", "c", "s"⟩).cookies ∧
    (callbackHandler
      ⟨"obligator", fun _ => some ⟨"github", "GitHub", "cid", "sec", "", "a", "tk", "", false⟩,
       fun _ => none, fun _ _ => some (200, some ⟨"at", "bearer", 3600, ""⟩),
       fun _ => false, fun _ _ => .fail,
       fun _ _ => .error "Bad status getting profile",
       some [], some "/r", some true, none, true, true⟩
      (some "cv") (some ⟨"github", "st", "n", "ver"⟩) ⟨"h", "c", "s"⟩).redirect = some "/r" :=
  callback_profile_error_ignored
    ⟨"obligator", fun _ => some ⟨"github", "GitHub", "cid", "sec", "", "a", "tk", "", false⟩,
     fun _ => none, fun _ _ => some (200, some ⟨"at", "bearer", 3600, ""⟩),
     fun _ => false, fun _ _ => .fail,
     fun _ _ => .error "Bad status getting profile",
     some [], some "/r", some true, none, true, true⟩
    "cv" ⟨"github", "st", "n", "ver"⟩ ⟨"h", "c", "s"⟩
    ⟨"github", "GitHub", "cid", "sec", "", "a", "tk", "", false⟩
    ⟨"at", "bearer", 3600, ""⟩ "Bad status getting profile" [] "/r"
    rfl rfl rfl rfl rfl rfl rfl rfl rfl

/-- C7: a successful /approve builds an ID token with sub equal to the
submitted identity_id, audience the singleton client_id from the
AuthRequest envelope, exp equal to iat plus 24 hours, nonce copied from
the envelope, email and email_verified claims present exactly when email
is among the space-separated scope parts, and a name claim present exactly
when profile is among the parts and the identity name is non-empty. -/
theorem approve_idtoken_claims (w : ApproveWorld) (lcv : String)
    (idents : List Identity) (lg : ClaimGet (List (String × List Login)))
    (ar : AuthReqEnv) (identity_id : String) (ident : Identity)
    (hfind : idents.find? (fun (i : Identity) => i.Id == identity_id) = some ident)
    (haddLogin : w.addLoginOk = true)
    (hkey : w.hasKey = true) :
    (approveHandler w "POST" (some lcv) (some ⟨.found idents, lg⟩) (some ar)
        identity_id).status = 303 ∧
    ∃ t, (approveHandler w "POST" (some lcv) (some ⟨.found idents, lg⟩) (some ar)
        identity_id).idToken = some t ∧
      t.sub = identity_id ∧ t.aud = [ar.client_id] ∧ t.exp = t.iat + 86400 ∧
      t.nonce = ar.nonce ∧
      (t.email.isSome ↔ "email" ∈ splitScope ar.scope) ∧
      (t.email_verified.isSome ↔ "email" ∈ splitScope ar.scope) ∧
      (t.name.isSome ↔ ("profile" ∈ splitScope ar.scope ∧ ident.Name ≠ "")) := by
  unfold approveHandler
  simp only [bne_self_eq_false, Bool.false_eq_true, if_false, haddLogin, hkey, hfind,
    Bool.not_true]
  by_cases hrt : (ar.response_type == "none") = true <;> simp [hrt]

/-- Witness for C7: a concrete approval with scope openid email profile
and identity name Alice yields an ID token with the stated claims. -/
theorem approve_idtoken_claims_witness :
    (approveHandler ⟨"obligator", "https://idp", 1000, true, true, fun _ => "sigid",
        fun _ => "sigcode"⟩ "POST" (some "lk")
      (some ⟨.found [⟨"email", "alice@x", "MyProv", "Alice", "alice@x", true⟩], .missing⟩)
      (some ⟨"h", "https://rp", "https://rp/cb", "S1", "openid email profile", "N1", "CH",
        "code"⟩) "alice@x").status = 303 ∧
    ∃ t, (approveHandler ⟨"obligator", "https://idp", 1000, true, true, fun _ => "sigid",
        fun _ => "sigcode"⟩ "POST" (some "lk")
      (some ⟨.found [⟨"email", "alice@x", "MyProv", "Alice", "alice@x", true⟩], .missing⟩)
      (some ⟨"h", "https://rp", "https://rp/cb", "S1", "openid email profile", "N1", "CH",
        "code"⟩) "alice@x").idToken = some t ∧
      t.sub = "alice@x" ∧ t.aud = ["https://rp"] ∧ t.exp = t.iat + 86400 ∧
      t.nonce = "N1" ∧
      (t.email.isSome ↔ "email" ∈ splitScope "openid email profile") ∧
      (t.email_verified.isSome ↔ "email" ∈ splitScope "openid email profile") ∧
      (t.name.isSome ↔ ("profile" ∈ splitScope "openid email profile" ∧
        ("Alice" : String) ≠ "")) :=
  approve_idtoken_claims ⟨"obligator", "https://idp", 1000, true, true, fun _ => "sigid",
      fun _ => "sigcode"⟩ "lk"
    [⟨"email", "alice@x", "MyProv", "Alice", "alice@x", true⟩] .missing
    ⟨"h", "https://rp", "https://rp/cb", "S1", "openid email profile", "N1", "CH", "code"⟩
    "alice@x" ⟨"email", "alice@x", "MyProv", "Alice", "alice@x", true⟩
    (by decide) rfl rfl

/-- Counterexample to C8: a successful approval whose scope omits email
produces a code envelope whose sub is the empty string, not the approved
identity email alice@x, because the source copies the Email getter of the
just-built ID token and that getter returns empty when the email claim was
not requested. -/
theorem approve_code_sub_counterexample :
    ((approveHandler ⟨"obligator", "https://idp", 1000, true, true, fun _ => "sigid",
        fun _ => "sigcode"⟩ "POST" (some "lk")
      (some ⟨.found [⟨"email", "alice@x", "MyProv", "Alice", "alice@x", true⟩], .missing⟩)
      (some ⟨"h", "https://rp", "https://rp/cb", "S1", "openid", "N1", "CH", "code"⟩)
      "alice@x").code.map CodeEnvBuilt.sub) = some "" ∧
    (approveHandler ⟨"obligator", "https://idp", 1000, true, true, fun _ => "sigid",
        fun _ => "sigcode"⟩ "POST" (some "lk")
      (some ⟨.found [⟨"email", "alice@x", "MyProv", "Alice", "alice@x", true⟩], .missing⟩)
      (some ⟨"h", "https://rp", "https://rp/cb", "S1", "openid", "N1", "CH", "code"⟩)
      "alice@x").status = 303 ∧
    Identity.Email ⟨"email", "alice@x", "MyProv", "Alice", "alice@x", true⟩ = "alice@x" ∧
    some "" ≠ some "alice@x" := by
  refine ⟨by decide, by decide, by decide, by decide⟩

/-- C8 (amended): a successful /approve builds a code envelope whose sub is
the Email getter of the embedded ID token, hence the identity email when
email is in scope and the empty string otherwise; the envelope embeds the
signed ID token, copies the pkce_code_challenge from the AuthRequest
envelope, and expires 16 seconds after iat. -/
theorem approve_code_envelope (w : ApproveWorld) (lcv : String)
    (idents : List Identity) (lg : ClaimGet (List (String × List Login)))
    (ar : AuthReqEnv) (identity_id : String) (ident : Identity)
    (hfind : idents.find? (fun (i : Identity) => i.Id == identity_id) = some ident)
    (haddLogin : w.addLoginOk = true)
    (hkey : w.hasKey = true) :
    ∃ t c, (approveHandler w "POST" (some lcv) (some ⟨.found idents, lg⟩) (some ar)
        identity_id).idToken = some t ∧
      (approveHandler w "POST" (some lcv) (some ⟨.found idents, lg⟩) (some ar)
        identity_id).code = some c ∧
      c.sub = idTokenEmail t ∧
      ("email" ∈ splitScope ar.scope → c.sub = ident.Email) ∧
      ("email" ∉ splitScope ar.scope → c.sub = "") ∧
      c.id_token = w.signIdToken t ∧
      c.pkce_code_challenge = ar.pkce_code_challenge ∧
      c.iat = w.now ∧ c.exp = c.iat + 16 := by
  unfold approveHandler
  simp only [bne_self_eq_false, Bool.false_eq_true, if_false, haddLogin, hkey, hfind,
    Bool.not_true]
  by_cases hrt : (ar.response_type == "none") = true <;>
    by_cases he : "email" ∈ splitScope ar.scope <;>
    simp [hrt, he, idTokenEmail, List.elem_iff]

/-- Witness for C8 (amended): with scope openid email the code envelope sub
equals the identity email, embeds the signed token and expires after 16
seconds. -/
theorem approve_code_envelope_witness :
    ∃ t c, (approveHandler ⟨"obligator", "https://idp", 1000, true, true, fun _ => "sigid",
        fun _ => "sigcode"⟩ "POST" (some "lk")
      (some ⟨.found [⟨"email", "alice@x", "MyProv", "Alice", "alice@x", true⟩], .missing⟩)
      (some ⟨"h", "https://rp", "https://rp/cb", "S1", "openid email", "N1", "CH", "code"⟩)
      "alice@x").idToken = some t ∧
      (approveHandler ⟨"obligator", "https://idp", 1000, true, true, fun _ => "sigid",
        fun _ => "sigcode"⟩ "POST" (some "lk")
      (some ⟨.found [⟨"email", "alice@x", "MyProv", "Alice", "alice@x", true⟩], .missing⟩)
      (some ⟨"h", "https://rp", "https://rp/cb", "S1", "openid email", "N1", "CH", "code"⟩)
      "alice@x").code = some c ∧
      c.sub = idTokenEmail t ∧
      ("email" ∈ splitScope "openid email" →
        c.sub = Identity.Email ⟨"email", "alice@x", "MyProv", "Alice", "alice@x", true⟩) ∧
      ("email" ∉ splitScope "openid email" → c.sub = "") ∧
      c.id_token = "sigid" ∧
      c.pkce_code_challenge = "CH" ∧
      c.iat = 1000 ∧ c.exp = c.iat + 16 :=
  approve_code_envelope ⟨"obligator", "https://idp", 1000, true, true, fun _ => "sigid",
      fun _ => "sigcode"⟩ "lk"
    [⟨"email", "alice@x", "MyProv", "Alice", "alice@x", true⟩] .missing
    ⟨"h", "https://rp", "https://rp/cb", "S1", "openid email", "N1", "CH", "code"⟩
    "alice@x" ⟨"email", "alice@x", "MyProv", "Alice", "alice@x", true⟩
    (by decide) rfl rfl

/-- C10: a POST to /approve with a valid session cookie always emits the
deletion Set-Cookie for the auth_request envelope, and in particular a
request rejected with 403 because the identity is not owned still has the
envelope cleared as its only cookie operation. -/
theorem approve_clears_auth_request (w : ApproveWorld) (lcv : String)
    (payload : SessionPayload) (authReq : Option AuthReqEnv) (identity_id : String) :
    CookieOp.clear (w.pfx ++ "auth_request") ∈
      (approveHandler w "POST" (some lcv) (some payload) authReq identity_id).cookies ∧
    (∀ ar idents, authReq = some ar → payload.identities = .found idents →
      idents.find? (fun (i : Identity) => i.Id == identity_id) = none →
      (approveHandler w "POST" (some lcv) (some payload) authReq identity_id).status = 403 ∧
      (approveHandler w "POST" (some lcv) (some payload) authReq identity_id).cookies =
        [CookieOp.clear (w.pfx ++ "auth_request")]) := by
  constructor
  · unfold approveHandler
    simp only [bne_self_eq_false, Bool.false_eq_true, if_false]
    cases authReq with
    | none => simp
    | some ar =>
      cases hid : (match payload.identities with
        | .found idents => idents.find? (fun (i : Identity) => i.Id == identity_id)
        | _ => none) with
      | none => simp [hid]
      | some ident =>
        simp only [hid]
        by_cases hadd : w.addLoginOk <;>
          by_cases hk : w.hasKey <;>
          by_cases hrt : (ar.response_type == "none") = true <;>
          simp [hadd, hk, hrt]
  · intro ar idents har hidents hfind
    subst har
    unfold approveHandler
    simp [hidents, hfind]

/-- Witness for C10: a concrete approval for an identity the session does
not own returns 403 with exactly the auth_request deletion cookie. -/
theorem approve_clears_auth_request_witness :
    (approveHandler ⟨"obligator", "https://idp", 1000, true, true, fun _ => "sigid",
        fun _ => "sigcode"⟩ "POST" (some "lk")
      (some ⟨.found [⟨"email", "alice@x", "MyProv", "Alice", "alice@x", true⟩], .missing⟩)
      (some ⟨"h", "https://rp", "https://rp/cb", "S1", "openid", "N1", "CH", "code"⟩)
      "mallory@x").status = 403 ∧
    (approveHandler ⟨"obligator", "https://idp", 1000, true, true, fun _ => "sigid",
        fun _ => "sigcode"⟩ "POST" (some "lk")
      (some ⟨.found [⟨"email", "alice@x", "MyProv", "Alice", "alice@x", true⟩], .missing⟩)
      (some ⟨"h", "https://rp", "https://rp/cb", "S1", "openid", "N1", "CH", "code"⟩)
      "mallory@x").cookies = [CookieOp.clear "obligatorauth_request"] :=
  (approve_clears_auth_request ⟨"obligator", "https://idp", 1000, true, true,
      fun _ => "sigid", fun _ => "sigcode"⟩ "lk"
    ⟨.found [⟨"email", "alice@x", "MyProv", "Alice", "alice@x", true⟩], .missing⟩
    (some ⟨"h", "https://rp", "https://rp/cb", "S1", "openid", "N1", "CH", "code"⟩)
    "mallory@x").2
    ⟨"h", "https://rp", "https://rp/cb", "S1", "openid", "N1", "CH", "code"⟩
    [⟨"email", "alice@x", "MyProv", "Alice", "alice@x", true⟩]
    rfl rfl (by decide)

end Obligator
